import Mathlib

/-!
Shallow embedding of the ClipGenius backend (src/backend): the request
orchestration and caching pipeline of `main.py` together with the three
services it sequences (`services/youtube.py`, `services/ai.py`,
`services/database.py`).

External collaborators — the YouTube transcript client, the OpenRouter
HTTP call, the JSON decoder of the standard library, and the filesystem
backing the cache file — are modelled as injected outcomes or small
executable models; every piece of repository logic (branching, error
classification, message texts, cache handling) is translated
function-for-function from the source.
-/

/-! ## services/youtube.py — identifier extraction -/

/-- Character class `[a-zA-Z0-9_-]` of the video-id patterns in
`extract_video_id`. -/
def isIdChar (c : Char) : Bool :=
  (decide ('a' ≤ c ∧ c ≤ 'z')) || (decide ('A' ≤ c ∧ c ≤ 'Z')) ||
  (decide ('0' ≤ c ∧ c ≤ '9')) || c == '_' || c == '-'

/-- One attempted regex match at a fixed position: the literal marker
must be a prefix here, immediately followed by exactly 11 characters of
the id class (the `(?:marker)([a-zA-Z0-9_-]{11})` shape). -/
def tryAt (m s : List Char) : Option (List Char) :=
  if m.isPrefixOf s then
    let tok := (s.drop m.length).take 11
    if tok.length == 11 && tok.all isIdChar then some tok else none
  else none

/-- `re.search` over one pattern: first position (left to right) where
the marker-plus-11-id-characters shape matches. -/
def search (m : List Char) : List Char → Option (List Char)
  | [] => tryAt m []
  | c :: cs =>
    match tryAt m (c :: cs) with
    | some tok => some tok
    | none => search m cs

/-- Literal marker of the first pattern `(?:youtube\.com\/watch\?v=)`. -/
def watchMarker : List Char := "youtube.com/watch?v=".data

/-- Literal marker of the second pattern `(?:youtu\.be\/)`. -/
def shortMarker : List Char := "youtu.be/".data

/-- Literal marker of the third pattern `(?:youtube\.com\/embed\/)`. -/
def embedMarker : List Char := "youtube.com/embed/".data

/-- The pattern loop of `extract_video_id`: patterns tried in order,
first `re.search` hit wins. -/
def extract_core (cs : List Char) : Option (List Char) :=
  match search watchMarker cs with
  | some t => some t
  | none =>
    match search shortMarker cs with
    | some t => some t
    | none =>
      match search embedMarker cs with
      | some t => some t
      | none => none

/-- `extract_video_id` (services/youtube.py): returns the captured
11-character token of the first matching pattern, `None` otherwise. -/
def extract_video_id (youtube_url : String) : Option String :=
  (extract_core youtube_url.data).map String.mk

/-! ## services/youtube.py — transcript fetch -/

/-- One transcript snippet: `text`, `start`, `duration`
(floats in the source, modelled as rationals; no claim computes with
them). -/
structure Segment where
  text : String
  start : Rat
  duration : Rat
deriving DecidableEq

/-- Outcome of the external `YouTubeTranscriptApi().fetch(video_id)`
call: either the snippet list, or an exception whose `str(e)` text is
`msg`. -/
inductive YtOutcome
  | ok (snippets : List Segment)
  | err (msg : String)

/-- The dictionary returned by `fetch_transcript`. -/
inductive FetchResult
  | success (transcript : List Segment) (text : String)
  | failure (error : String)
deriving DecidableEq

/-- `str.lower()` on the ASCII range (the classification substrings are
all ASCII). -/
def pyLower (s : String) : String := String.mk (s.data.map Char.toLower)

/-- Helper for substring containment: does the needle occur at some
position? -/
def containsSubAux (n : List Char) : List Char → Bool
  | [] => n.isPrefixOf []
  | c :: cs => n.isPrefixOf (c :: cs) || containsSubAux n cs

/-- Python's `needle in hay` substring test. -/
def containsSub (hay needle : String) : Bool := containsSubAux needle.data hay.data

/-- `fetch_transcript` (services/youtube.py): on success builds the
segment list and the space-joined full text; on an exception classifies
`str(e).lower()` by substring inspection, in the source's order. -/
def fetch_transcript (o : YtOutcome) : FetchResult :=
  match o with
  | .ok snippets =>
    let transcript_list := snippets
    let full_text := String.intercalate " " (transcript_list.map (·.text))
    .success transcript_list full_text
  | .err e =>
    let error_msg := pyLower e
    if containsSub error_msg "disabled" then
      .failure "Transcripts are disabled for this video."
    else if containsSub error_msg "no transcript" || containsSub error_msg "not found" then
      .failure "No transcript found for this video. It might not have captions."
    else if containsSub error_msg "unavailable" || containsSub error_msg "private" then
      .failure "Video is unavailable. It might be private or deleted."
    else
      .failure ("Failed to fetch transcript: " ++ e)

/-! ## services/ai.py — analysis engine call

The OpenRouter HTTP round trip is an external collaborator; its outcome
is injected.  The JSON handling that the source performs on the returned
content (`json.loads`, fence stripping, the `timestamps` lookup) is
modelled executably below. -/

/-- A decoded JSON value (the fragment produced by `json.loads` that the
source can ever observe: objects, arrays, strings, integers, booleans,
null). -/
inductive JVal
  | obj (fields : List (String × JVal))
  | arr (elems : List JVal)
  | str (s : String)
  | num (n : Int)
  | bool (b : Bool)
  | null

/-- Skip JSON whitespace (space, tab, newline, carriage return). -/
def skipWs : List Char → List Char
  | c :: cs =>
    if c == ' ' || c == '\t' || c == '\n' || c == '\r' then skipWs cs else c :: cs
  | [] => []

/-- Scan a JSON string body after the opening quote.  Escape sequences
are outside the modelled fragment (none of the inputs exercised contain
them); a backslash makes the parse fail. -/
def pStringRest : List Char → Option (List Char × List Char)
  | [] => none
  | c :: cs =>
    if c == '"' then some ([], cs)
    else if c == '\\' then none
    else
      match pStringRest cs with
      | some (acc, rest) => some (c :: acc, rest)
      | none => none

/-- Longest digit prefix. -/
def digitsPrefix : List Char → List Char × List Char
  | c :: cs =>
    if c.isDigit then
      let (d, r) := digitsPrefix cs
      (c :: d, r)
    else ([], c :: cs)
  | [] => ([], [])

/-- Digits to the number they denote. -/
def digitsToNat (ds : List Char) : Nat := ds.foldl (fun n c => 10 * n + (c.toNat - 48)) 0

mutual

/-- Parse one JSON value (fuel-indexed recursive descent modelling
`json.loads` on the integer-number, escape-free fragment). -/
def pVal : Nat → List Char → Option (JVal × List Char)
  | 0, _ => none
  | fuel + 1, s =>
    match skipWs s with
    | [] => none
    | c :: cs =>
      if c == '\x7b' then pObj fuel cs
      else if c == '[' then pArrStart fuel cs
      else if c == '"' then
        match pStringRest cs with
        | some (acc, rest) => some (.str (String.mk acc), rest)
        | none => none
      else if c == 't' then
        if cs.take 3 == ['r', 'u', 'e'] then some (.bool true, cs.drop 3) else none
      else if c == 'f' then
        if cs.take 4 == ['a', 'l', 's', 'e'] then some (.bool false, cs.drop 4) else none
      else if c == 'n' then
        if cs.take 3 == ['u', 'l', 'l'] then some (.null, cs.drop 3) else none
      else if c == '-' then
        match digitsPrefix cs with
        | ([], _) => none
        | (ds, r) =>
          match r with
          | r0 :: _ => if r0 == '.' || r0 == 'e' || r0 == 'E' then none
                       else some (.num (-(digitsToNat ds : Int)), r)
          | [] => some (.num (-(digitsToNat ds : Int)), r)
      else if c.isDigit then
        match digitsPrefix (c :: cs) with
        | (ds, r) =>
          match r with
          | r0 :: _ => if r0 == '.' || r0 == 'e' || r0 == 'E' then none
                       else some (.num (digitsToNat ds : Int), r)
          | [] => some (.num (digitsToNat ds : Int), r)
      else none

/-- Parse an object body after the opening brace. -/
def pObj : Nat → List Char → Option (JVal × List Char)
  | 0, _ => none
  | fuel + 1, s =>
    match skipWs s with
    | [] => none
    | c :: cs =>
      if c == '\x7d' then some (.obj [], cs)
      else
        match pMembers (fuel + 1) (c :: cs) with
        | some (ms, rest) => some (.obj ms, rest)
        | none => none

/-- Parse one or more `"key": value` members followed by `,` or the
closing brace. -/
def pMembers : Nat → List Char → Option (List (String × JVal) × List Char)
  | 0, _ => none
  | fuel + 1, s =>
    match skipWs s with
    | [] => none
    | c :: cs =>
      if c == '"' then
        match pStringRest cs with
        | some (k, r1) =>
          match skipWs r1 with
          | c2 :: r2 =>
            if c2 == ':' then
              match pVal fuel r2 with
              | some (v, r3) =>
                match skipWs r3 with
                | c3 :: r4 =>
                  if c3 == ',' then
                    match pMembers fuel r4 with
                    | some (ms, r5) => some ((String.mk k, v) :: ms, r5)
                    | none => none
                  else if c3 == '\x7d' then some ([(String.mk k, v)], r4)
                  else none
                | [] => none
              | none => none
            else none
          | [] => none
        | none => none
      else none

/-- Parse an array body after the opening bracket. -/
def pArrStart : Nat → List Char → Option (JVal × List Char)
  | 0, _ => none
  | fuel + 1, s =>
    match skipWs s with
    | [] => none
    | c :: cs =>
      if c == ']' then some (.arr [], cs)
      else
        match pElems (fuel + 1) (c :: cs) with
        | some (es, rest) => some (.arr es, rest)
        | none => none

/-- Parse one or more array elements followed by `,` or the closing
bracket. -/
def pElems : Nat → List Char → Option (List JVal × List Char)
  | 0, _ => none
  | fuel + 1, s =>
    match pVal fuel s with
    | some (v, r) =>
      match skipWs r with
      | c :: r2 =>
        if c == ',' then
          match pElems fuel r2 with
          | some (es, r3) => some (v :: es, r3)
          | none => none
        else if c == ']' then some ([v], r2)
        else none
      | [] => none
    | none => none

end

/-- `json.loads` model: parse one value, require only trailing
whitespace after it (Python raises `Extra data` otherwise); `none`
models `json.JSONDecodeError`. -/
def jsonDecode (s : String) : Option JVal :=
  match pVal (s.length + 1) s.data with
  | some (v, rest) => if (skipWs rest).isEmpty then some v else none
  | none => none

/-- Detail text of a `json.JSONDecodeError`'s `str(e)` (the exact
wording varies with the input in the source; only the fixed prefix of
the surfaced message is specified). -/
def jsonDecodeErrorDetail : String := "Expecting value"

/-- Detail text of the `AttributeError` raised when `parsed.get` is
called on a non-dict value (the exact wording varies with the value's
type in the source). -/
def attrErrorDetail : String := "object has no attribute get"

/-- Outcome of the external `requests.post` call to OpenRouter:
a 200 response whose envelope yields `content`, a non-200 response whose
extracted detail is `detail`, a `requests.exceptions.Timeout`, or any
other exception with text `msg` (this also covers a malformed response
envelope, whose `KeyError` lands in the same generic handler). -/
inductive ApiOutcome
  | ok (content : String)
  | httpError (detail : String)
  | timeout
  | exn (msg : String)

/-- The dictionary returned by `analyze_transcript`: `success` with the
value bound to the `timestamps` key, or `success: False` with an error
message. -/
inductive AiResult
  | success (timestamps : JVal)
  | failure (error : String)

/-- Fence stripping of ai.py lines 105-108: if the text starts with
three backticks, keep the piece between the first and second fence and
drop a leading `json` tag. -/
def stripFence (s : String) : String :=
  if s.startsWith "```" then
    let piece := (s.splitOn "```").getD 1 ""
    if piece.startsWith "json" then piece.drop 4 else piece
  else s

/-- Lookup modelling `parsed.get("timestamps", [])` on a decoded dict
(last duplicate key wins, as in a Python dict built by `json.loads`). -/
def jget (fields : List (String × JVal)) (k : String) : JVal :=
  (fields.reverse.lookup k).getD (.arr [])

/-- `analyze_transcript` (services/ai.py).  The missing-key check comes
first; the prompt is then built — indexing `transcript_segments[0]`
raises `IndexError` on an empty segment list, which the generic handler
converts to a failure; otherwise the HTTP outcome is handled and, on a
200, the content is trimmed, unfenced, JSON-decoded and its
`timestamps` entry extracted. -/
def analyze_transcript (keyPresent : Bool) (api : ApiOutcome)
    (transcript_text : String) (transcript_segments : List Segment) : AiResult :=
  if !keyPresent then
    .failure "OpenRouter API key not configured. Please add OPENROUTER_API_KEY to your .env file."
  else if transcript_segments.isEmpty then
    .failure "AI analysis failed: list index out of range"
  else
    match api with
    | .timeout => .failure "AI request timed out. Please try again."
    | .httpError detail => .failure ("OpenRouter API error: " ++ detail)
    | .exn msg => .failure ("AI analysis failed: " ++ msg)
    | .ok content =>
      let text := (stripFence content.trim).trim
      match jsonDecode text with
      | none => .failure ("Failed to parse AI response: " ++ jsonDecodeErrorDetail)
      | some (.obj fields) => .success (jget fields "timestamps")
      | some _ => .failure ("AI analysis failed: " ++ attrErrorDetail)

/-! ## services/database.py — cache store

The cache file is modelled as `Option Cache`: `none` covers a missing,
unreadable or corrupt file (every such condition makes `_load_cache`
return the empty dict through its own handler).  Whether the file write
inside `_save_cache` raises is injected as `writeOk`. -/

/-- One stored analysis record (the dict written under a video id). -/
structure Entry where
  video_id : String
  video_title : String
  timestamps : JVal
  created_at : String

/-- The deserialized cache file: a dict keyed by video id. -/
abbrev Cache := List (String × Entry)

/-- The state of the backing cache file. -/
structure DBState where
  file : Option Cache

/-- `_load_cache`: the deserialized file, or `{}` when it is missing or
unreadable/corrupt. -/
def _load_cache (st : DBState) : Cache := st.file.getD []

/-- `_save_cache`: rewrites the whole file; an exception during the
write is caught inside `_save_cache` itself and only printed, leaving
the file as it was. -/
def _save_cache (writeOk : Bool) (cache : Cache) (st : DBState) : DBState :=
  if writeOk then ⟨some cache⟩ else st

/-- Python dict assignment `cache[video_id] = ...`: replace the binding
when the key exists, append it otherwise. -/
def dictInsert (k : String) (v : Entry) : Cache → Cache
  | [] => [(k, v)]
  | (k', v') :: rest => if k' == k then (k, v) :: rest else (k', v') :: dictInsert k v rest

/-- The dictionary returned by `save_analysis`. -/
inductive SaveResult
  | success
  | failure (error : String)
deriving DecidableEq

/-- `save_analysis` (database.py): load the cache, overwrite the entry
for `video_id` in full, write the cache back.  The enclosing
`try/except` (which would return `success: False`) is unreachable for a
failing file write, because `_save_cache` swallows that exception
itself; no other statement of the body raises. -/
def save_analysis (writeOk : Bool) (video_id video_title : String)
    (timestamps : JVal) (now : String) (st : DBState) : SaveResult × DBState :=
  let cache := _load_cache st
  let cache2 := dictInsert video_id ⟨video_id, video_title, timestamps, now⟩ cache
  (.success, _save_cache writeOk cache2 st)

/-- `get_cached_analysis` (database.py): point lookup; `none` models
`found: False`. -/
def get_cached_analysis (st : DBState) (video_id : String) : Option Entry :=
  (_load_cache st).lookup video_id

/-! ## main.py — request orchestration -/

/-- The `/api/analyze` response body.  The response-model coercion layer
(FastAPI/pydantic) is the conventional request/response facade and is
not part of the modelled core, so `timestamps` carries the decoded JSON
value exactly as the handler passes it. -/
structure AnalyzeResponse where
  success : Bool
  video_id : Option String := none
  video_title : Option String := none
  timestamps : JVal := .arr []
  cached : Bool := false
  error : Option String := none

/-- How a request terminates: a 200 body, or an `HTTPException` with a
status code and detail. -/
inductive HttpOutcome
  | ok (resp : AnalyzeResponse)
  | httpError (status : Nat) (detail : String)

/-- External conditions of one request: the transcript-fetch outcome,
whether `OPENROUTER_API_KEY` is set (non-empty), the OpenRouter call
outcome, whether the cache-file write succeeds, and the
`datetime.utcnow().isoformat()` value. -/
structure Env where
  yt : YtOutcome
  keyPresent : Bool
  api : ApiOutcome
  writeOk : Bool
  now : String

/-- Result of running `analyze_video` once: the HTTP outcome, the cache
state afterwards, and how many times the analysis step (step 4) was
reached. -/
structure RunResult where
  outcome : HttpOutcome
  state : DBState
  aiCalls : Nat

/-- `analyze_video` (main.py): extract id → cache lookup → transcript
fetch → analysis → best-effort save → respond, with the source's status
codes and messages. -/
def analyze_video (env : Env) (youtube_url : String) (st : DBState) : RunResult :=
  match extract_video_id youtube_url with
  | none =>
    ⟨.httpError 400 "Invalid YouTube URL. Please provide a valid YouTube video link.", st, 0⟩
  | some video_id =>
    match get_cached_analysis st video_id with
    | some data =>
      ⟨.ok { success := true, video_id := some video_id,
             video_title := some data.video_title,
             timestamps := data.timestamps, cached := true }, st, 0⟩
    | none =>
      match fetch_transcript env.yt with
      | .failure err => ⟨.httpError 400 err, st, 0⟩
      | .success transcript_list full_text =>
        match analyze_transcript env.keyPresent env.api full_text transcript_list with
        | .failure err => ⟨.httpError 500 err, st, 1⟩
        | .success timestamps =>
          let video_title := "YouTube Video (" ++ video_id ++ ")"
          let st2 := (save_analysis env.writeOk video_id video_title timestamps env.now st).2
          ⟨.ok { success := true, video_id := some video_id,
                 video_title := some video_title,
                 timestamps := timestamps, cached := false }, st2, 1⟩

/-- `get_results` (main.py): read-only cache lookup. -/
def get_results (st : DBState) (video_id : String) : HttpOutcome :=
  match get_cached_analysis st video_id with
  | none =>
    .httpError 404 "No analysis found for this video. Use /api/analyze to analyze it first."
  | some data =>
    .ok { success := true, video_id := some video_id,
          video_title := some data.video_title,
          timestamps := data.timestamps, cached := true }

/-- The property a position must have for one of the regex patterns to
match there: the marker, then 11 id-class characters, then anything. -/
def matchesShape (m t : List Char) : Prop :=
  ∃ tok rest, t = m ++ (tok ++ rest) ∧ tok.length = 11 ∧ tok.all isIdChar = true

/-- The cache-store invariant of the spec: keys are unique and every
stored record's identifier field equals its key. -/
def cacheInv (c : Cache) : Prop :=
  (c.map Prod.fst).Nodup ∧ ∀ p ∈ c, p.2.video_id = p.1

/-- The invariant on the backing file (trivially true for a missing or
unreadable file, which reads as the empty dict). -/
def stateInv (st : DBState) : Prop := cacheInv (_load_cache st)

instance : DecidablePred cacheInv := fun c => by
  unfold cacheInv
  infer_instance

instance : DecidablePred stateInv := fun st => by
  unfold stateInv
  infer_instance

/-! ## Spec-side definitions used for comparison -/

/-- The spec's closed taxonomy of transcript-fetch failures (§4.3). -/
inductive FetchFailureKind
  | disabled
  | notFound
  | unavailable
  | otherFetchError
deriving DecidableEq

/-- Classification following the spec's words: inspect the failure
detail text case-insensitively for the substrings "disabled",
"no transcript"/"not found", "unavailable"/"private", falling back to
`otherFetchError` for anything unrecognized. -/
def classifyFailureSpec (detail : String) : FetchFailureKind :=
  let m := pyLower detail
  if containsSub m "disabled" then .disabled
  else if containsSub m "no transcript" || containsSub m "not found" then .notFound
  else if containsSub m "unavailable" || containsSub m "private" then .unavailable
  else .otherFetchError

/-- The user-facing wording the source attaches to each failure kind
(the unrecognized kind carries the original detail). -/
def fetchFailureMessage : FetchFailureKind → String → String
  | .disabled, _ => "Transcripts are disabled for this video."
  | .notFound, _ => "No transcript found for this video. It might not have captions."
  | .unavailable, _ => "Video is unavailable. It might be private or deleted."
  | .otherFetchError, e => "Failed to fetch transcript: " ++ e


/-! ## Lemmas about the extractor's search -/

theorem tryAt_nil (m : List Char) : tryAt m [] = none := by
  cases m <;> rfl

theorem isPrefixOf_append_self : ∀ m t : List Char, m.isPrefixOf (m ++ t) = true
  | [], _ => by simp [List.isPrefixOf]
  | a :: as, t => by
    simp only [List.cons_append, List.isPrefixOf, beq_self_eq_true, Bool.true_and]
    exact isPrefixOf_append_self as t

theorem tryAt_append (m tok rest : List Char) (h1 : tok.length = 11)
    (h2 : tok.all isIdChar = true) :
    tryAt m (m ++ (tok ++ rest)) = some tok := by
  unfold tryAt
  rw [isPrefixOf_append_self, List.drop_left, ← h1, List.take_left]
  simp [h2]

theorem search_hit (m tok : List Char) (hm : m ≠ []) (h1 : tok.length = 11)
    (h2 : tok.all isIdChar = true) :
    search m (m ++ tok) = some tok := by
  have htry : tryAt m (m ++ tok) = some tok := by
    have := tryAt_append m tok [] h1 h2
    rwa [List.append_nil] at this
  match m, hm with
  | y :: ms, _ =>
    rw [List.cons_append] at htry ⊢
    rw [search, htry]

theorem all_of_isPrefixOf (p : Char → Bool) :
    ∀ m s : List Char, m.isPrefixOf s = true → s.all p = true → m.all p = true
  | [], _, _, _ => rfl
  | a :: as, [], h, _ => by simp [List.isPrefixOf] at h
  | a :: as, b :: bs, h, hall => by
    simp only [List.isPrefixOf, Bool.and_eq_true, beq_iff_eq] at h
    simp only [List.all_cons, Bool.and_eq_true] at hall ⊢
    exact ⟨h.1 ▸ hall.1, all_of_isPrefixOf p as bs h.2 hall.2⟩

theorem search_none_of_all_id (m : List Char) (hm : m.all isIdChar = false) :
    ∀ s : List Char, s.all isIdChar = true → search m s = none
  | [], _ => by rw [search, tryAt_nil]
  | c :: cs, hs => by
    have hcs : cs.all isIdChar = true := by
      simp only [List.all_cons, Bool.and_eq_true] at hs
      exact hs.2
    have htry : tryAt m (c :: cs) = none := by
      cases hp : m.isPrefixOf (c :: cs) with
      | true =>
        have := all_of_isPrefixOf isIdChar m (c :: cs) hp hs
        rw [this] at hm
        exact absurd hm (by simp)
      | false => simp [tryAt, hp]
    rw [search, htry]
    exact search_none_of_all_id m hm cs hcs


theorem tryAt_ne_none_of_matches {m t : List Char} (h : matchesShape m t) :
    tryAt m t ≠ none := by
  obtain ⟨tok, rest, ht, h1, h2⟩ := h
  rw [ht, tryAt_append m tok rest h1 h2]
  exact Option.some_ne_none tok

theorem matches_of_tryAt_some {m t tok : List Char} (h : tryAt m t = some tok) :
    matchesShape m t := by
  unfold tryAt at h
  cases hp : m.isPrefixOf t with
  | false => rw [hp] at h; simp at h
  | true =>
    rw [hp] at h
    simp only [if_true] at h
    have hpre : m <+: t := List.isPrefixOf_iff_prefix.mp hp
    obtain ⟨u, hu⟩ := hpre
    cases hcond : (((t.drop m.length).take 11).length == 11 && ((t.drop m.length).take 11).all isIdChar) with
    | false => rw [hcond] at h; simp at h
    | true =>
      rw [hcond] at h
      simp only [Option.some_inj] at h
      simp only [Bool.and_eq_true, beq_iff_eq] at hcond
      refine ⟨(t.drop m.length).take 11, (t.drop m.length).drop 11, ?_, hcond.1, hcond.2⟩
      rw [List.take_append_drop, ← hu, List.drop_left]

theorem tryAt_eq_none_iff {m t : List Char} : tryAt m t = none ↔ ¬ matchesShape m t := by
  constructor
  · intro h hmatch
    exact tryAt_ne_none_of_matches hmatch h
  · intro h
    cases htry : tryAt m t with
    | none => rfl
    | some tok => exact absurd (matches_of_tryAt_some htry) h

theorem search_eq_none_iff (m : List Char) :
    ∀ s : List Char, search m s = none ↔ ∀ t, t <:+ s → tryAt m t = none
  | [] => by
    rw [search]
    constructor
    · intro h t ht
      rw [List.suffix_nil.mp ht]
      exact h
    · intro h
      exact h [] List.nil_suffix
  | c :: cs => by
    rw [search]
    constructor
    · intro h t ht
      cases htry : tryAt m (c :: cs) with
      | some tok => rw [htry] at h; simp at h
      | none =>
        rw [htry] at h
        rcases List.suffix_cons_iff.mp ht with h1 | h2
        · rw [h1]; exact htry
        · exact ((search_eq_none_iff m cs).mp h) t h2
    · intro h
      have htry : tryAt m (c :: cs) = none := h (c :: cs) (List.suffix_refl (c :: cs))
      rw [htry]
      exact (search_eq_none_iff m cs).mpr fun t ht => h t (ht.trans (List.suffix_cons c cs))

theorem extract_watch_shape (tok : List Char) (h1 : tok.length = 11)
    (h2 : tok.all isIdChar = true) :
    extract_video_id ("https://www.youtube.com/watch?v=" ++ String.mk tok) =
      some (String.mk tok) := by
  have hdata : ("https://www.youtube.com/watch?v=" ++ String.mk tok).data =
      "https://www.youtube.com/watch?v=".data ++ tok := rfl
  have hpeel : search watchMarker ("https://www.youtube.com/watch?v=".data ++ tok) =
      search watchMarker (watchMarker ++ tok) := rfl
  have hhit := search_hit watchMarker tok (by decide) h1 h2
  unfold extract_video_id extract_core
  rw [hdata, hpeel, hhit]
  rfl

theorem extract_short_shape (tok : List Char) (h1 : tok.length = 11)
    (h2 : tok.all isIdChar = true) :
    extract_video_id ("https://youtu.be/" ++ String.mk tok) = some (String.mk tok) := by
  have hdata : ("https://youtu.be/" ++ String.mk tok).data =
      "https://youtu.be/".data ++ tok := rfl
  have hw : search watchMarker ("https://youtu.be/".data ++ tok) = none := by
    have hpeel : search watchMarker ("https://youtu.be/".data ++ tok) =
        search watchMarker tok := rfl
    rw [hpeel]
    exact search_none_of_all_id watchMarker (by decide) tok h2
  have hs : search shortMarker ("https://youtu.be/".data ++ tok) = some tok := by
    have hpeel : search shortMarker ("https://youtu.be/".data ++ tok) =
        search shortMarker (shortMarker ++ tok) := rfl
    rw [hpeel]
    exact search_hit shortMarker tok (by decide) h1 h2
  unfold extract_video_id extract_core
  rw [hdata, hw, hs]
  rfl

theorem extract_embed_shape (tok : List Char) (h1 : tok.length = 11)
    (h2 : tok.all isIdChar = true) :
    extract_video_id ("https://www.youtube.com/embed/" ++ String.mk tok) =
      some (String.mk tok) := by
  have hdata : ("https://www.youtube.com/embed/" ++ String.mk tok).data =
      "https://www.youtube.com/embed/".data ++ tok := rfl
  have hw : search watchMarker ("https://www.youtube.com/embed/".data ++ tok) = none := by
    have hpeel : search watchMarker ("https://www.youtube.com/embed/".data ++ tok) =
        search watchMarker tok := rfl
    rw [hpeel]
    exact search_none_of_all_id watchMarker (by decide) tok h2
  have hs : search shortMarker ("https://www.youtube.com/embed/".data ++ tok) = none := by
    have hpeel : search shortMarker ("https://www.youtube.com/embed/".data ++ tok) =
        search shortMarker tok := rfl
    rw [hpeel]
    exact search_none_of_all_id shortMarker (by decide) tok h2
  have he : search embedMarker ("https://www.youtube.com/embed/".data ++ tok) = some tok := by
    have hpeel : search embedMarker ("https://www.youtube.com/embed/".data ++ tok) =
        search embedMarker (embedMarker ++ tok) := rfl
    rw [hpeel]
    exact search_hit embedMarker tok (by decide) h1 h2
  unfold extract_video_id extract_core
  rw [hdata, hw, hs, he]
  rfl

/-- C8: every 11-character token of the id alphabet is returned
identically by `extract_video_id` from each of the three recognized URL
shapes (watch page, short link, embed player, tried in that fixed
order), and a string in which no position matches any of the three
marker-plus-token shapes yields `none` as a normal value. -/
theorem extract_recognized_shapes :
    (∀ tok : List Char, tok.length = 11 → tok.all isIdChar = true →
      extract_video_id ("https://www.youtube.com/watch?v=" ++ String.mk tok) =
        some (String.mk tok) ∧
      extract_video_id ("https://youtu.be/" ++ String.mk tok) = some (String.mk tok) ∧
      extract_video_id ("https://www.youtube.com/embed/" ++ String.mk tok) =
        some (String.mk tok)) ∧
    (∀ url : String,
      (∀ t, t <:+ url.data → ¬ matchesShape watchMarker t ∧ ¬ matchesShape shortMarker t ∧
        ¬ matchesShape embedMarker t) →
      extract_video_id url = none) := by
  constructor
  · intro tok h1 h2
    exact ⟨extract_watch_shape tok h1 h2, extract_short_shape tok h1 h2,
      extract_embed_shape tok h1 h2⟩
  · intro url h
    have hw : search watchMarker url.data = none :=
      (search_eq_none_iff watchMarker url.data).mpr
        fun t ht => tryAt_eq_none_iff.mpr (h t ht).1
    have hs : search shortMarker url.data = none :=
      (search_eq_none_iff shortMarker url.data).mpr
        fun t ht => tryAt_eq_none_iff.mpr (h t ht).2.1
    have he : search embedMarker url.data = none :=
      (search_eq_none_iff embedMarker url.data).mpr
        fun t ht => tryAt_eq_none_iff.mpr (h t ht).2.2
    unfold extract_video_id extract_core
    rw [hw, hs, he]
    rfl

/-- Witness for C8 at the concrete token `dQw4w9WgXcQ` and the
shape-free string `hello world`. -/
theorem extract_recognized_shapes_witness :
    extract_video_id "https://www.youtube.com/watch?v=dQw4w9WgXcQ" = some "dQw4w9WgXcQ" ∧
    extract_video_id "https://youtu.be/dQw4w9WgXcQ" = some "dQw4w9WgXcQ" ∧
    extract_video_id "https://www.youtube.com/embed/dQw4w9WgXcQ" = some "dQw4w9WgXcQ" ∧
    extract_video_id "hello world" = none := by
  have h1 := extract_recognized_shapes.1 "dQw4w9WgXcQ".data (by decide) (by decide)
  refine ⟨h1.1, h1.2.1, h1.2.2, ?_⟩
  refine extract_recognized_shapes.2 "hello world" fun t ht => ?_
  refine ⟨tryAt_eq_none_iff.mp ((search_eq_none_iff watchMarker "hello world".data).mp
      (by decide) t ht),
    tryAt_eq_none_iff.mp ((search_eq_none_iff shortMarker "hello world".data).mp
      (by decide) t ht),
    tryAt_eq_none_iff.mp ((search_eq_none_iff embedMarker "hello world".data).mp
      (by decide) t ht)⟩

/-! ## Lemmas about the cache store -/

theorem lookup_dictInsert_self (k : String) (v : Entry) :
    ∀ c : Cache, (dictInsert k v c).lookup k = some v
  | [] => by simp [dictInsert, List.lookup]
  | (k', v') :: rest => by
    by_cases h : k' = k
    · simp [dictInsert, h, List.lookup]
    · simp [dictInsert, beq_eq_false_iff_ne.mpr h, List.lookup,
        beq_eq_false_iff_ne.mpr (Ne.symm h), lookup_dictInsert_self k v rest]

theorem mem_dictInsert {p : String × Entry} (k : String) (v : Entry) :
    ∀ c : Cache, p ∈ dictInsert k v c → p = (k, v) ∨ p ∈ c
  | [] => by simp [dictInsert]
  | (k', v') :: rest => by
    by_cases h : k' = k
    · simp only [dictInsert, beq_iff_eq.mpr h, eq_self_iff_true, if_true, List.mem_cons]
      rintro (h1 | h2)
      · exact Or.inl h1
      · exact Or.inr (Or.inr h2)
    · simp only [dictInsert, beq_eq_false_iff_ne.mpr h, Bool.false_eq_true, if_false,
        List.mem_cons]
      rintro (h1 | h2)
      · exact Or.inr (Or.inl h1)
      · rcases mem_dictInsert k v rest h2 with h3 | h4
        · exact Or.inl h3
        · exact Or.inr (Or.inr h4)

theorem mem_keys_dictInsert {a : String} (k : String) (v : Entry) :
    ∀ c : Cache, a ∈ (dictInsert k v c).map Prod.fst → a = k ∨ a ∈ c.map Prod.fst
  | [] => by simp [dictInsert]
  | (k', v') :: rest => by
    by_cases h : k' = k
    · simp only [dictInsert, beq_iff_eq.mpr h, eq_self_iff_true, if_true, List.map_cons,
        List.mem_cons]
      rintro (h1 | h2)
      · exact Or.inl h1
      · exact Or.inr (Or.inr h2)
    · simp only [dictInsert, beq_eq_false_iff_ne.mpr h, Bool.false_eq_true, if_false,
        List.map_cons, List.mem_cons]
      rintro (h1 | h2)
      · exact Or.inr (Or.inl h1)
      · rcases mem_keys_dictInsert k v rest h2 with h3 | h4
        · exact Or.inl h3
        · exact Or.inr (Or.inr h4)

theorem nodup_keys_dictInsert (k : String) (v : Entry) :
    ∀ c : Cache, (c.map Prod.fst).Nodup → ((dictInsert k v c).map Prod.fst).Nodup
  | [], _ => by simp [dictInsert]
  | (k', v') :: rest, hnd => by
    simp only [List.map_cons, List.nodup_cons] at hnd
    by_cases h : k' = k
    · simp only [dictInsert, beq_iff_eq.mpr h, eq_self_iff_true, if_true, List.map_cons,
        List.nodup_cons]
      exact ⟨h ▸ hnd.1, hnd.2⟩
    · simp only [dictInsert, beq_eq_false_iff_ne.mpr h, Bool.false_eq_true, if_false,
        List.map_cons, List.nodup_cons]
      refine ⟨fun hmem => ?_, nodup_keys_dictInsert k v rest hnd.2⟩
      rcases mem_keys_dictInsert k v rest hmem with h1 | h2
      · exact h h1
      · exact hnd.1 h2


/-! ## Claims about the cache store (put/get) -/

/-- C3 counterexample: a `put` whose underlying file write fails (the
write raises; `_save_cache` catches and only prints) still returns the
success result, and the record was not durably written — the cache still
lacks the key afterwards.  This contradicts the claim that such a
failure is reported as `Failure(reason)` and that `put` returns
`Success` exactly when the record was durably written. -/
theorem save_analysis_write_failure_counterexample :
    (save_analysis false "abc45678901" "Title" (.arr []) "2024-01-01T00:00:00" ⟨some []⟩).1 =
      .success ∧
    get_cached_analysis
      (save_analysis false "abc45678901" "Title" (.arr []) "2024-01-01T00:00:00" ⟨some []⟩).2
      "abc45678901" = none := by
  constructor <;> rfl

/-- C3 (amended): `save_analysis` reports success unconditionally — in
particular even when the underlying cache-file write fails, because
`_save_cache` swallows the write exception itself (only printing it), so
the `success: False` branch of `save_analysis` is unreachable for a
failing write and no `Failure(reason)` ever reaches the caller. -/
theorem save_analysis_always_reports_success (writeOk : Bool) (vid title : String)
    (ts : JVal) (now : String) (st : DBState) :
    (save_analysis writeOk vid title ts now st).1 = .success := rfl

/-- C4: writing a record via `save_analysis` (with the underlying write
going through) and then reading it back via `get_cached_analysis` for
the same identifier yields field-for-field equal data — identifier,
title and ordered highlight list as given, with the creation timestamp
fixed at write time. -/
theorem put_get_roundtrip (vid title : String) (ts : JVal) (now : String) (st : DBState) :
    get_cached_analysis (save_analysis true vid title ts now st).2 vid =
      some { video_id := vid, video_title := title, timestamps := ts, created_at := now } := by
  unfold save_analysis _save_cache get_cached_analysis _load_cache
  simp only [if_pos rfl, Option.getD_some]
  exact lookup_dictInsert_self vid _ _

/-- C9: `save_analysis` preserves the store invariant (unique keys, and
every stored record's identifier field equals its key) for any outcome
of the underlying write, and when the write goes through the new record
replaces any prior record for that key in full. -/
theorem cache_invariant_preserved (writeOk : Bool) (vid title : String) (ts : JVal)
    (now : String) (st : DBState) (hinv : stateInv st) :
    stateInv (save_analysis writeOk vid title ts now st).2 ∧
    (writeOk = true →
      get_cached_analysis (save_analysis writeOk vid title ts now st).2 vid =
        some { video_id := vid, video_title := title, timestamps := ts, created_at := now }) := by
  cases writeOk with
  | false =>
    exact ⟨hinv, fun h => Bool.noConfusion h⟩
  | true =>
    refine ⟨?_, fun _ => put_get_roundtrip vid title ts now st⟩
    unfold stateInv _load_cache at hinv
    unfold save_analysis _save_cache stateInv _load_cache
    simp only [if_pos rfl, Option.getD_some]
    constructor
    · exact nodup_keys_dictInsert vid _ _ hinv.1
    · intro p hp
      rcases mem_dictInsert vid _ _ hp with h1 | h2
      · rw [h1]
      · exact hinv.2 p h2

/-- Witness for C9 at a concrete populated store. -/
theorem cache_invariant_preserved_witness :
    stateInv ⟨some [("vid45678901", ⟨"vid45678901", "T0", .arr [], "t0"⟩)]⟩ ∧
    stateInv (save_analysis true "abc45678901" "T1" (.arr []) "t1"
      ⟨some [("vid45678901", ⟨"vid45678901", "T0", .arr [], "t0"⟩)]⟩).2 ∧
    get_cached_analysis (save_analysis true "abc45678901" "T1" (.arr []) "t1"
      ⟨some [("vid45678901", ⟨"vid45678901", "T0", .arr [], "t0"⟩)]⟩).2 "abc45678901" =
      some { video_id := "abc45678901", video_title := "T1", timestamps := .arr [],
             created_at := "t1" } := by
  have hinv : stateInv ⟨some [("vid45678901", ⟨"vid45678901", "T0", .arr [], "t0"⟩)]⟩ := by
    decide
  have h := cache_invariant_preserved true "abc45678901" "T1" (.arr []) "t1"
    ⟨some [("vid45678901", ⟨"vid45678901", "T0", .arr [], "t0"⟩)]⟩ hinv
  exact ⟨hinv, h.1, h.2 rfl⟩

/-! ## Claims about the analyze pipeline -/

/-- C1: whenever identifier extraction, transcript fetch and analysis
all succeed on a cache miss, the endpoint returns the success response
built from the new record — identifier, synthesized title, the engine's
highlight list, `cached := false` — for both outcomes of the cache
write, so a persistence failure never changes the response. -/
theorem analyze_success_unaffected_by_put_failure (env : Env) (url : String) (st : DBState)
    (vid : String) (tr : List Segment) (txt : String) (ts : JVal)
    (hx : extract_video_id url = some vid)
    (hc : get_cached_analysis st vid = none)
    (hf : fetch_transcript env.yt = .success tr txt)
    (ha : analyze_transcript env.keyPresent env.api txt tr = .success ts) :
    ∀ b : Bool, (analyze_video { env with writeOk := b } url st).outcome =
      .ok { success := true, video_id := some vid,
            video_title := some ("YouTube Video (" ++ vid ++ ")"),
            timestamps := ts, cached := false } := by
  intro b
  simp only [analyze_video, hx, hc, hf, ha]

/-- C2: an identifier already present in the cache is answered
immediately from the store (`cached := true`), the store is untouched,
a second consecutive call returns the identical stored record, and the
analysis step is reached at most once (in fact never) across both
calls. -/
theorem analyze_cache_hit_idempotent (env1 env2 : Env) (url : String) (st : DBState)
    (vid : String) (entry : Entry)
    (hx : extract_video_id url = some vid)
    (hc : get_cached_analysis st vid = some entry) :
    (analyze_video env1 url st).outcome =
      .ok { success := true, video_id := some vid, video_title := some entry.video_title,
            timestamps := entry.timestamps, cached := true } ∧
    (analyze_video env1 url st).state = st ∧
    (analyze_video env2 url (analyze_video env1 url st).state).outcome =
      (analyze_video env1 url st).outcome ∧
    (analyze_video env1 url st).aiCalls +
      (analyze_video env2 url (analyze_video env1 url st).state).aiCalls ≤ 1 := by
  have hrun : ∀ env : Env, analyze_video env url st =
      ⟨.ok { success := true, video_id := some vid, video_title := some entry.video_title,
             timestamps := entry.timestamps, cached := true }, st, 0⟩ := by
    intro env
    simp only [analyze_video, hx, hc]
  rw [hrun env1]
  simp only
  rw [hrun env2]
  simp

/-- C10: a transcript fetch that succeeds with zero segments does not
crash the request: the `IndexError` raised while building the prompt is
converted into a classified analysis failure and the endpoint answers
500. -/
theorem empty_transcript_no_crash (env : Env) (url : String) (st : DBState) (vid : String)
    (hx : extract_video_id url = some vid)
    (hc : get_cached_analysis st vid = none)
    (hyt : env.yt = .ok [])
    (hkey : env.keyPresent = true) :
    analyze_video env url st =
      ⟨.httpError 500 "AI analysis failed: list index out of range", st, 1⟩ := by
  have hf : fetch_transcript env.yt = .success [] "" := by rw [hyt]; rfl
  have ha : analyze_transcript env.keyPresent env.api "" [] =
      .failure "AI analysis failed: list index out of range" := by
    rw [hkey]
    rfl
  simp only [analyze_video, hx, hc, hf, ha]

/-- C5: every transcript-fetch failure is classified exactly as the
spec's case-insensitive substring taxonomy prescribes (disabled /
no transcript~not found / unavailable~private / other, in that order),
and a failure whose message contains "disabled" makes the endpoint
answer 400 with that specific wording. -/
theorem fetch_failure_classification :
    (∀ e : String, fetch_transcript (.err e) =
      .failure (fetchFailureMessage (classifyFailureSpec e) e)) ∧
    (∀ (env : Env) (url : String) (st : DBState) (vid e : String),
      env.yt = .err e →
      extract_video_id url = some vid →
      get_cached_analysis st vid = none →
      containsSub (pyLower e) "disabled" = true →
      analyze_video env url st =
        ⟨.httpError 400 "Transcripts are disabled for this video.", st, 0⟩) := by
  constructor
  · intro e
    simp only [fetch_transcript, classifyFailureSpec]
    split_ifs <;> rfl
  · intro env url st vid e hyt hx hc hdis
    have hf : fetch_transcript env.yt =
        .failure "Transcripts are disabled for this video." := by
      rw [hyt]
      simp [fetch_transcript, hdis]
    simp only [analyze_video, hx, hc, hf]

/-- Witness for C5: a concrete mixed-case "DISABLED" message yields the
400 with the disabled wording, and an unrecognized message classifies
as the fallback kind. -/
theorem fetch_failure_classification_witness :
    containsSub (pyLower "Subtitles are DISABLED for this video") "disabled" = true ∧
    analyze_video
      { yt := .err "Subtitles are DISABLED for this video", keyPresent := true,
        api := .ok "y", writeOk := true, now := "t0" }
      "https://youtu.be/dQw4w9WgXcQ" ⟨none⟩ =
      ⟨.httpError 400 "Transcripts are disabled for this video.", ⟨none⟩, 0⟩ ∧
    fetch_transcript (.err "some WEIRD error") =
      .failure (fetchFailureMessage (classifyFailureSpec "some WEIRD error")
        "some WEIRD error") := by
  refine ⟨by decide, ?_, fetch_failure_classification.1 "some WEIRD error"⟩
  exact fetch_failure_classification.2 _ _ _ "dQw4w9WgXcQ"
    "Subtitles are DISABLED for this video" rfl rfl rfl (by decide)

/-- C7: when the analysis-engine key is absent, requests that never
reach the analysis step — invalid URL, cache hit, transcript failure —
produce responses that do not depend on the key at all (their outcome is
fully determined without it), while a request that does attempt analysis
fails with 500 (not 400) carrying the not-configured message. -/
theorem missing_api_key_behavior :
    (∀ (env : Env) (url : String) (st : DBState),
      extract_video_id url = none →
      analyze_video env url st =
        ⟨.httpError 400 "Invalid YouTube URL. Please provide a valid YouTube video link.",
         st, 0⟩) ∧
    (∀ (env : Env) (url : String) (st : DBState) (vid : String) (entry : Entry),
      extract_video_id url = some vid →
      get_cached_analysis st vid = some entry →
      analyze_video env url st =
        ⟨.ok { success := true, video_id := some vid,
               video_title := some entry.video_title,
               timestamps := entry.timestamps, cached := true }, st, 0⟩) ∧
    (∀ (env : Env) (url : String) (st : DBState) (vid e : String),
      extract_video_id url = some vid →
      get_cached_analysis st vid = none →
      fetch_transcript env.yt = .failure e →
      analyze_video env url st = ⟨.httpError 400 e, st, 0⟩) ∧
    (∀ (env : Env) (url : String) (st : DBState) (vid : String) (tr : List Segment)
      (txt : String),
      env.keyPresent = false →
      extract_video_id url = some vid →
      get_cached_analysis st vid = none →
      fetch_transcript env.yt = .success tr txt →
      analyze_video env url st =
        ⟨.httpError 500
          "OpenRouter API key not configured. Please add OPENROUTER_API_KEY to your .env file.",
         st, 1⟩) := by
  refine ⟨?_, ?_, ?_, ?_⟩
  · intro env url st hx
    simp only [analyze_video, hx]
  · intro env url st vid entry hx hc
    simp only [analyze_video, hx, hc]
  · intro env url st vid e hx hc hf
    simp only [analyze_video, hx, hc, hf]
  · intro env url st vid tr txt hkey hx hc hf
    have ha : analyze_transcript env.keyPresent env.api txt tr =
        .failure
          "OpenRouter API key not configured. Please add OPENROUTER_API_KEY to your .env file." := by
      rw [hkey]
      rfl
    simp only [analyze_video, hx, hc, hf, ha]
/-- Witness for C7: the four cases at concrete inputs, all with the key
absent. -/
theorem missing_api_key_behavior_witness :
    analyze_video
      { yt := .err "boom", keyPresent := false, api := .ok "y", writeOk := true,
        now := "t" }
      "no url here" ⟨none⟩ =
      ⟨.httpError 400 "Invalid YouTube URL. Please provide a valid YouTube video link.",
       ⟨none⟩, 0⟩ ∧
    analyze_video
      { yt := .err "boom", keyPresent := false, api := .ok "y", writeOk := true,
        now := "t" }
      "https://youtu.be/dQw4w9WgXcQ"
      ⟨some [("dQw4w9WgXcQ", ⟨"dQw4w9WgXcQ", "T", .arr [], "t0"⟩)]⟩ =
      ⟨.ok { success := true, video_id := some "dQw4w9WgXcQ", video_title := some "T",
             timestamps := .arr [], cached := true },
       ⟨some [("dQw4w9WgXcQ", ⟨"dQw4w9WgXcQ", "T", .arr [], "t0"⟩)]⟩, 0⟩ ∧
    analyze_video
      { yt := .err "it is unavailable", keyPresent := false, api := .ok "y",
        writeOk := true, now := "t" }
      "https://youtu.be/dQw4w9WgXcQ" ⟨none⟩ =
      ⟨.httpError 400 "Video is unavailable. It might be private or deleted.", ⟨none⟩, 0⟩ ∧
    analyze_video
      { yt := .ok [⟨"Hello", 0, 1⟩], keyPresent := false, api := .ok "y",
        writeOk := true, now := "t" }
      "https://youtu.be/dQw4w9WgXcQ" ⟨none⟩ =
      ⟨.httpError 500
        "OpenRouter API key not configured. Please add OPENROUTER_API_KEY to your .env file.",
       ⟨none⟩, 1⟩ := by
  refine ⟨missing_api_key_behavior.1 _ _ _ rfl,
    missing_api_key_behavior.2.1 _ _ _ "dQw4w9WgXcQ" ⟨"dQw4w9WgXcQ", "T", .arr [], "t0"⟩
      rfl rfl,
    missing_api_key_behavior.2.2.1 _ _ _ "dQw4w9WgXcQ"
      "Video is unavailable. It might be private or deleted." rfl rfl rfl,
    missing_api_key_behavior.2.2.2 _ _ _ "dQw4w9WgXcQ" [⟨"Hello", 0, 1⟩] "Hello"
      rfl rfl rfl rfl⟩

/-- Witness for C1: a full successful run whose cache write fails
(`writeOk := false`) still answers with the newly built record. -/
theorem analyze_success_unaffected_by_put_failure_witness :
    (analyze_video
      { yt := .ok [⟨"Hello", 0, 1⟩], keyPresent := true,
        api := .ok "\x7b\"timestamps\": []\x7d", writeOk := false, now := "t0" }
      "https://youtu.be/dQw4w9WgXcQ" ⟨none⟩).outcome =
      .ok { success := true, video_id := some "dQw4w9WgXcQ",
            video_title := some ("YouTube Video (" ++ "dQw4w9WgXcQ" ++ ")"),
            timestamps := .arr [], cached := false } :=
  analyze_success_unaffected_by_put_failure
    { yt := .ok [⟨"Hello", 0, 1⟩], keyPresent := true,
      api := .ok "\x7b\"timestamps\": []\x7d", writeOk := false, now := "t0" }
    "https://youtu.be/dQw4w9WgXcQ" ⟨none⟩ "dQw4w9WgXcQ" [⟨"Hello", 0, 1⟩] "Hello"
    (.arr []) rfl rfl rfl (by with_unfolding_all rfl) false

/-- Witness for C2: two consecutive calls on a store already holding the
identifier. -/
theorem analyze_cache_hit_idempotent_witness :
    (analyze_video
      { yt := .err "x", keyPresent := true, api := .ok "y", writeOk := true, now := "t" }
      "https://youtu.be/dQw4w9WgXcQ"
      ⟨some [("dQw4w9WgXcQ", ⟨"dQw4w9WgXcQ", "T", .arr [], "t0"⟩)]⟩).outcome =
      .ok { success := true, video_id := some "dQw4w9WgXcQ", video_title := some "T",
            timestamps := .arr [], cached := true } ∧
    (analyze_video
      { yt := .err "x", keyPresent := true, api := .ok "y", writeOk := true, now := "t" }
      "https://youtu.be/dQw4w9WgXcQ"
      ⟨some [("dQw4w9WgXcQ", ⟨"dQw4w9WgXcQ", "T", .arr [], "t0"⟩)]⟩).state =
      ⟨some [("dQw4w9WgXcQ", ⟨"dQw4w9WgXcQ", "T", .arr [], "t0"⟩)]⟩ ∧
    (analyze_video
      { yt := .err "z", keyPresent := false, api := .ok "w", writeOk := false, now := "u" }
      "https://youtu.be/dQw4w9WgXcQ"
      (analyze_video
        { yt := .err "x", keyPresent := true, api := .ok "y", writeOk := true, now := "t" }
        "https://youtu.be/dQw4w9WgXcQ"
        ⟨some [("dQw4w9WgXcQ", ⟨"dQw4w9WgXcQ", "T", .arr [], "t0"⟩)]⟩).state).outcome =
      (analyze_video
        { yt := .err "x", keyPresent := true, api := .ok "y", writeOk := true, now := "t" }
        "https://youtu.be/dQw4w9WgXcQ"
        ⟨some [("dQw4w9WgXcQ", ⟨"dQw4w9WgXcQ", "T", .arr [], "t0"⟩)]⟩).outcome ∧
    (analyze_video
      { yt := .err "x", keyPresent := true, api := .ok "y", writeOk := true, now := "t" }
      "https://youtu.be/dQw4w9WgXcQ"
      ⟨some [("dQw4w9WgXcQ", ⟨"dQw4w9WgXcQ", "T", .arr [], "t0"⟩)]⟩).aiCalls +
    (analyze_video
      { yt := .err "z", keyPresent := false, api := .ok "w", writeOk := false, now := "u" }
      "https://youtu.be/dQw4w9WgXcQ"
      (analyze_video
        { yt := .err "x", keyPresent := true, api := .ok "y", writeOk := true, now := "t" }
        "https://youtu.be/dQw4w9WgXcQ"
        ⟨some [("dQw4w9WgXcQ", ⟨"dQw4w9WgXcQ", "T", .arr [], "t0"⟩)]⟩).state).aiCalls ≤ 1 :=
  analyze_cache_hit_idempotent
    { yt := .err "x", keyPresent := true, api := .ok "y", writeOk := true, now := "t" }
    { yt := .err "z", keyPresent := false, api := .ok "w", writeOk := false, now := "u" }
    "https://youtu.be/dQw4w9WgXcQ"
    ⟨some [("dQw4w9WgXcQ", ⟨"dQw4w9WgXcQ", "T", .arr [], "t0"⟩)]⟩
    "dQw4w9WgXcQ" ⟨"dQw4w9WgXcQ", "T", .arr [], "t0"⟩ rfl rfl

/-- Witness for C10: a zero-segment transcript at a concrete request. -/
theorem empty_transcript_no_crash_witness :
    analyze_video
      { yt := .ok [], keyPresent := true, api := .ok "y", writeOk := true, now := "t" }
      "https://youtu.be/dQw4w9WgXcQ" ⟨none⟩ =
      ⟨.httpError 500 "AI analysis failed: list index out of range", ⟨none⟩, 1⟩ :=
  empty_transcript_no_crash _ _ _ "dQw4w9WgXcQ" rfl rfl rfl rfl

/-- Reduction of `analyze_transcript` on the 200-response path with the
key present and a nonempty segment list: the result is determined by the
JSON decoding of the trimmed, unfenced content. -/
theorem analyze_transcript_ok_reduce (content txt : String) (tr : List Segment)
    (hne : tr.isEmpty = false) :
    analyze_transcript true (.ok content) txt tr =
      (match jsonDecode ((stripFence content.trim).trim) with
       | none => .failure ("Failed to parse AI response: " ++ jsonDecodeErrorDetail)
       | some (.obj fields) => .success (jget fields "timestamps")
       | some _ => .failure ("AI analysis failed: " ++ attrErrorDetail)) := by
  unfold analyze_transcript
  rw [hne]
  rfl

/-- C6 counterexample: an engine response whose content is the valid
JSON object with no `timestamps` entry at all — content that does not
parse as the structured highlight list — is NOT reported as a failure:
the request succeeds (200, `success := true`) with a silently empty
highlight list, because `parsed.get("timestamps", [])` defaults to the
empty list. -/
theorem analyze_missing_timestamps_silent_empty :
    analyze_video
      { yt := .ok [⟨"Hello", 0, 1⟩], keyPresent := true, api := .ok "\x7b\x7d",
        writeOk := true, now := "t0" }
      "https://youtu.be/dQw4w9WgXcQ" ⟨none⟩ =
      ⟨.ok { success := true, video_id := some "dQw4w9WgXcQ",
             video_title := some "YouTube Video (dQw4w9WgXcQ)",
             timestamps := .arr [], cached := false },
       ⟨some [("dQw4w9WgXcQ",
         ⟨"dQw4w9WgXcQ", "YouTube Video (dQw4w9WgXcQ)", .arr [], "t0"⟩)]⟩, 1⟩ := by
  with_unfolding_all rfl

/-- C6 (amended): content that fails JSON decoding is reported as a
distinct analysis failure (HTTP 500, parse-failure message); however a
response that decodes to a JSON object lacking a `timestamps` entry is
silently accepted as success with an empty highlight list. -/
theorem analyze_json_decode_failure_reported :
    (∀ (env : Env) (url : String) (st : DBState) (vid : String) (tr : List Segment)
      (txt content : String),
      extract_video_id url = some vid →
      get_cached_analysis st vid = none →
      fetch_transcript env.yt = .success tr txt →
      env.keyPresent = true →
      tr.isEmpty = false →
      env.api = .ok content →
      jsonDecode ((stripFence content.trim).trim) = none →
      analyze_video env url st =
        ⟨.httpError 500 ("Failed to parse AI response: " ++ jsonDecodeErrorDetail),
         st, 1⟩) ∧
    (∀ (env : Env) (url : String) (st : DBState) (vid : String) (tr : List Segment)
      (txt content : String) (fields : List (String × JVal)),
      extract_video_id url = some vid →
      get_cached_analysis st vid = none →
      fetch_transcript env.yt = .success tr txt →
      env.keyPresent = true →
      tr.isEmpty = false →
      env.api = .ok content →
      jsonDecode ((stripFence content.trim).trim) = some (.obj fields) →
      fields.reverse.lookup "timestamps" = none →
      (analyze_video env url st).outcome =
        .ok { success := true, video_id := some vid,
              video_title := some ("YouTube Video (" ++ vid ++ ")"),
              timestamps := .arr [], cached := false }) := by
  constructor
  · intro env url st vid tr txt content hx hc hf hkey hempty hapi hdec
    have ha : analyze_transcript env.keyPresent env.api txt tr =
        .failure ("Failed to parse AI response: " ++ jsonDecodeErrorDetail) := by
      rw [hkey, hapi, analyze_transcript_ok_reduce content txt tr hempty, hdec]
    simp only [analyze_video, hx, hc, hf, ha]
  · intro env url st vid tr txt content fields hx hc hf hkey hempty hapi hdec hlook
    have ha : analyze_transcript env.keyPresent env.api txt tr = .success (.arr []) := by
      rw [hkey, hapi, analyze_transcript_ok_reduce content txt tr hempty, hdec]
      show AiResult.success (jget fields "timestamps") = AiResult.success (.arr [])
      unfold jget
      rw [hlook]
      rfl
    simp only [analyze_video, hx, hc, hf, ha]

/-- Witness for the amended C6: undecodable content yields the reported
500; a decodable object without the key yields the silent empty-list
success. -/
theorem analyze_json_decode_failure_reported_witness :
    analyze_video
      { yt := .ok [⟨"Hello", 0, 1⟩], keyPresent := true, api := .ok "not json",
        writeOk := true, now := "t0" }
      "https://youtu.be/dQw4w9WgXcQ" ⟨none⟩ =
      ⟨.httpError 500 ("Failed to parse AI response: " ++ jsonDecodeErrorDetail),
       ⟨none⟩, 1⟩ ∧
    (analyze_video
      { yt := .ok [⟨"Hello", 0, 1⟩], keyPresent := true, api := .ok "\x7b \x7d",
        writeOk := true, now := "t0" }
      "https://youtu.be/dQw4w9WgXcQ" ⟨none⟩).outcome =
      .ok { success := true, video_id := some "dQw4w9WgXcQ",
            video_title := some ("YouTube Video (" ++ "dQw4w9WgXcQ" ++ ")"),
            timestamps := .arr [], cached := false } := by
  refine ⟨analyze_json_decode_failure_reported.1 _ _ _ "dQw4w9WgXcQ" [⟨"Hello", 0, 1⟩]
      "Hello" "not json" rfl rfl rfl rfl rfl rfl (by with_unfolding_all rfl),
    analyze_json_decode_failure_reported.2 _ _ _ "dQw4w9WgXcQ" [⟨"Hello", 0, 1⟩]
      "Hello" "\x7b \x7d" [] rfl rfl rfl rfl rfl rfl (by with_unfolding_all rfl) rfl⟩
